import Mathlib

/-!
Verification of the versioned cluster-state engine of suss (src/suss/gui/app.py
and src/suss/gui/timeseries.py): the history stack, the selection/highlight
tracker, and the label-continuity policy of `SussViewer`, embedded shallowly.

Modelling notes:
* A `Dataset` is opaque to the core; we model it as a value identity (`id`)
  together with its label set, since those are the only facets the core reads.
* The external transform `merge_nodes` (suss.core, outside the GUI sources) is
  opaque, so `merge` takes its result dataset as a parameter.
* Qt signal emissions are recorded as an explicit list of `Event`s returned by
  each operation, in emission order.
* `make_color_map` only feeds rendering (`self.colors` is never read by the
  stack/selection/highlight logic), so the color map is not part of the state.
-/

namespace Suss

/-- A dataset snapshot as seen by the core: a value identity plus its set of
integer cluster labels (`dataset.labels`). -/
structure Dataset where
  id : Nat
  labels : Finset Nat
  deriving DecidableEq

/-- Modelled from the spec: `get_changed_labels` lives in suss/gui/utils.py,
which is not among the given sources; spec 4.2 defines it as the symmetric
difference of the two snapshots' label sets. -/
def get_changed_labels (a b : Dataset) : Finset Nat :=
  (a.labels \ b.labels) ∪ (b.labels \ a.labels)

/-- Modelled from the spec: `delete_node` lives in suss.core, which is not
among the given sources; spec 6 says it removes the one node with the given
label and returns a new dataset. -/
def Dataset.delete_node (d : Dataset) (label : Nat) : Dataset :=
  { d with labels := d.labels.erase label }

/-- A recorded Qt signal emission of `SussViewer`. Each constructor carries
exactly the values of the corresponding `pyqtSignal` declaration:
`UPDATED_CLUSTERS(object, object)`, `CLUSTER_SELECT(set, set)`,
`CLUSTER_HIGHLIGHT(object, object)` (app.py lines 173-177). -/
inductive Event where
  | updatedClusters (newDs oldDs : Dataset)
  | clusterSelect (sel oldSel : Finset Nat)
  | clusterHighlight (newH oldH : Option Nat)
  deriving DecidableEq

/-- Whether an event is a selection-changed (`CLUSTER_SELECT`) emission. -/
def Event.isSelect : Event → Bool
  | .clusterSelect _ _ => true
  | _ => false

/-- Whether an event is a highlight-changed (`CLUSTER_HIGHLIGHT`) emission. -/
def Event.isHighlight : Event → Bool
  | .clusterHighlight _ _ => true
  | _ => false

/-- Number of values carried by an emission, as fixed by the `pyqtSignal`
declarations in app.py lines 173-177 (two objects per channel). -/
def Event.arity : Event → Nat
  | .updatedClusters _ _ => 2
  | .clusterSelect _ _ => 2
  | .clusterHighlight _ _ => 2

/-- The mutable state of `SussViewer`: the history stack (load entry first,
current top last, as in `self.stack = [("load", dataset)]`), the selected
label set and the highlighted label. -/
structure SussViewer where
  stack : List (String × Dataset)
  selected : Finset Nat
  highlighted : Option Nat
  deriving DecidableEq

/-- The `dataset` property: `self.stack[-1][1]`. The stack is nonempty by
construction (`__init__` seeds the load entry), so the default is never
reached along reachable states. -/
def SussViewer.dataset (v : SussViewer) : Dataset :=
  ((v.stack.getLast?).getD ("", ⟨0, ∅⟩)).2

/-- The `last_action` property: `self.stack[-1][0]`. -/
def SussViewer.last_action (v : SussViewer) : String :=
  ((v.stack.getLast?).getD ("", ⟨0, ∅⟩)).1

/-- Character-list test that `pat` starts the list `s`. -/
def startsWithChars : List Char → List Char → Bool
  | [], _ => true
  | _ :: _, [] => false
  | a :: as, b :: bs => a == b && startsWithChars as bs

/-- Character-list test that `pat` occurs contiguously inside `s`. -/
def hasSubSeq (pat : List Char) : List Char → Bool
  | [] => pat.isEmpty
  | c :: rest => startsWithChars pat (c :: rest) || hasSubSeq pat rest

/-- Python's substring containment `pat in s` on strings. -/
def pyIn (pat s : String) : Bool :=
  hasSubSeq pat.toList s.toList

/-- Method `set_highlight` (app.py lines 239-244): store the new label and
emit `CLUSTER_HIGHLIGHT(new, old)` (the `if _old_label is not None` guard
passes `None` either way, so the payload is just the old value). -/
def set_highlight (v : SussViewer) (label : Option Nat) :
    SussViewer × List Event :=
  let _old_label := v.highlighted
  ({ v with highlighted := label },
   [.clusterHighlight label _old_label])

/-- Method `_enstack` (app.py lines 296-304): append the entry and emit
`UPDATED_CLUSTERS(self.dataset, _old_dataset)`. -/
def _enstack (v : SussViewer) (action : String) (dataset : Dataset) :
    SussViewer × List Event :=
  let _old_dataset := v.dataset
  let v1 : SussViewer := { v with stack := v.stack ++ [(action, dataset)] }
  (v1, [.updatedClusters v1.dataset _old_dataset])

/-- Method `_undo` (app.py lines 306-328): no-op when only the load entry
remains; otherwise pop, recompute the selection from the popped action and the
datasets, and emit `UPDATED_CLUSTERS` then `CLUSTER_SELECT`. -/
def _undo (v : SussViewer) : SussViewer × List Event :=
  if v.stack.length = 1 then (v, [])
  else
    let popped := (v.stack.getLast?).getD ("", ⟨0, ∅⟩)
    let last_action := popped.1
    let _old_dataset := popped.2
    let v1 : SussViewer := { v with stack := v.stack.dropLast }
    let new_labels := v1.dataset.labels
    let changed_labels := get_changed_labels v1.dataset _old_dataset
    let _old_selected := v.selected
    let selected' :=
      if pyIn "delete unselected" last_action then _old_dataset.labels
      else new_labels ∩ changed_labels
    let v2 : SussViewer := { v1 with selected := selected' }
    (v2, [.updatedClusters v2.dataset _old_dataset,
          .clusterSelect selected' _old_selected])

/-- The selection recomputation applied by `_undo` after a pop, as a function
of the popped action name, the popped dataset and the restored current
dataset only (app.py lines 315-322). -/
def undo_selection_policy (last_action : String) (popped current : Dataset) :
    Finset Nat :=
  if pyIn "delete unselected" last_action then popped.labels
  else current.labels ∩ get_changed_labels current popped

/-- Method `select_all` (app.py lines 344-350): toggle between the full label
set and the empty set, always emitting `CLUSTER_SELECT`. -/
def select_all (v : SussViewer) : SussViewer × List Event :=
  let _old_selected := v.selected
  let selected' : Finset Nat :=
    if v.selected = v.dataset.labels then ∅ else v.dataset.labels
  ({ v with selected := selected' },
   [.clusterSelect selected' _old_selected])

/-- Method `merge` (app.py lines 352-370): reject with a warning dialog when
fewer than two labels are selected; otherwise take the dataset produced by the
external `merge_nodes` transform (passed in as `mergeResult`), set the
selection to `new_labels ∩ get_changed_labels(new, old)`, push, and emit
`CLUSTER_SELECT` after the push's `UPDATED_CLUSTERS`. -/
def merge (v : SussViewer) (mergeResult : Dataset) : SussViewer × List Event :=
  if v.selected.card < 2 then (v, [])
  else
    let _new_dataset := mergeResult
    let new_labels := _new_dataset.labels
    let changed_labels := get_changed_labels _new_dataset v.dataset
    let _old_selected := v.selected
    let selected' := new_labels ∩ changed_labels
    let v1 : SussViewer := { v with selected := selected' }
    let r := _enstack v1 "merge" _new_dataset
    (r.1, r.2 ++ [.clusterSelect selected' _old_selected])

/-- Result of the `for label in to_delete: _new_dataset = _new_dataset.delete_node(label)`
loop of `_delete` (app.py lines 380-382). Python iterates the set in an
unspecified order; `foldl_delete_node_eq` below shows that folding
`delete_node` in any order produces exactly this dataset. -/
def delete_all (d : Dataset) (to_delete : Finset Nat) : Dataset :=
  { d with labels := d.labels \ to_delete }

/-- Folding `delete_node` over any enumeration of the labels to delete yields
`delete_all`, so the loop of `_delete` is insensitive to the set's iteration
order. -/
theorem foldl_delete_node_eq (d : Dataset) (l : List Nat) :
    l.foldl Dataset.delete_node d = delete_all d l.toFinset := by
  induction l generalizing d with
  | nil => simp [delete_all]
  | cons a t ih =>
      rw [List.foldl_cons, ih]
      simp only [delete_all, Dataset.delete_node, List.toFinset_cons,
        Dataset.mk.injEq, true_and]
      ext x
      simp only [Finset.mem_sdiff, Finset.mem_erase, Finset.mem_insert]
      tauto

/-- Method `_delete` (app.py lines 372-385): reject with a warning dialog when
`to_delete` is empty; otherwise run `delete_node` over every label to delete
and push the result under the pluralised action name. -/
def _delete (v : SussViewer) (to_delete : Finset Nat) (action : String) :
    SussViewer × List Event :=
  if to_delete.card = 0 then (v, [])
  else
    let _new_dataset := delete_all v.dataset to_delete
    let plural := if 1 < to_delete.card then "s" else ""
    _enstack v (action ++ " node" ++ plural) _new_dataset

/-- Method `delete` (app.py lines 387-389): run `_delete` on the selection,
then unconditionally clear the selection without emitting `CLUSTER_SELECT`. -/
def delete (v : SussViewer) : SussViewer × List Event :=
  let r := _delete v v.selected "delete"
  ({ r.1 with selected := ∅ }, r.2)

/-- Method `delete_unselected` (app.py lines 391-397): compute the labels to
delete, clear the selection, run `_delete`, and emit
`CLUSTER_SELECT(self.selected, _old_selected)` — `self.selected` being the
empty set just assigned. -/
def delete_unselected (v : SussViewer) : SussViewer × List Event :=
  let labels := v.dataset.labels
  let to_delete := labels \ v.selected
  let _old_selected := v.selected
  let v1 : SussViewer := { v with selected := ∅ }
  let r := _delete v1 to_delete "delete unselected"
  (r.1, r.2 ++ [.clusterSelect r.1.selected _old_selected])

/-- Method `clear` (app.py lines 405-409): empty the selection and emit
`CLUSTER_SELECT` then `CLUSTER_HIGHLIGHT(None, self.highlighted)`; the
`highlighted` attribute itself is never reassigned. -/
def clear (v : SussViewer) : SussViewer × List Event :=
  let _old_selected := v.selected
  let v1 : SussViewer := { v with selected := ∅ }
  (v1, [.clusterSelect v1.selected _old_selected,
        .clusterHighlight none v1.highlighted])

/-- Names of the methods and properties defined in the body of class
`SussViewer` in app.py (lines 162-455). -/
def sussViewerMethods : List String :=
  ["__init__", "closeEvent", "update_menu_bar", "init_actions", "dataset",
   "last_action", "set_highlight", "set_selected", "toggle_selected",
   "on_dataset_changed", "timer_paused", "setup_shortcuts", "_enstack",
   "_undo", "restore", "reset", "select_all", "merge", "_delete", "delete",
   "delete_unselected", "save", "load", "clear", "init_ui"]

/-- Names of the instance attributes assigned on `self` in `SussViewer`
methods (app.py: `__init__`, `on_dataset_changed`, `_enstack`, `_undo`,
`reset`, the action fields of `init_actions`, and the menus). -/
def sussViewerInstanceAttrs : List String :=
  ["stack", "selected", "highlighted", "animation_timer", "edit_menu",
   "history_menu", "colors", "undo_action", "merge_action", "delete_action",
   "clear_action", "delete_others_action", "select_all_action"]

/-- Python attribute lookup on a `SussViewer` instance, restricted to the
names introduced by this class (its Qt base classes define none of the
attributes at issue here). -/
def sussViewerHasAttr (name : String) : Bool :=
  sussViewerMethods.contains name || sussViewerInstanceAttrs.contains name

/-- Outcome of a Python operation that may raise. -/
inductive PyError where
  | attributeError (name : String)
  | typeError
  deriving DecidableEq

/-- Method `reset` (app.py lines 333-342): truncate the stack to the load
entry (`self.stack[:1]`), emit `UPDATED_CLUSTERS(self.dataset, _old_dataset)`,
then call `self.dataset_updated()` — an attribute lookup that raises
`AttributeError` when the name is defined nowhere on the instance. The state
reached and the events emitted before the lookup are returned alongside the
error. -/
def reset (v : SussViewer) : SussViewer × List Event × Option PyError :=
  let _old_dataset := v.dataset
  let v1 : SussViewer := { v with stack := v.stack.take 1 }
  let evs := [Event.updatedClusters v1.dataset _old_dataset]
  if sussViewerHasAttr "dataset_updated" then (v1, evs, none)
  else (v1, evs, some (.attributeError "dataset_updated"))

/-- The positional parameters (after `self`, all without defaults) of
`TimeseriesPlot.on_cluster_highlight` in timeseries.py line 202. -/
def on_cluster_highlight_params : List String :=
  ["new_highlight", "old_highlight", "temporary"]

/-- Calling a Python function whose parameters are all required positional
ones with `nargs` positional arguments: any mismatch raises `TypeError`. -/
def pyCallRequired (params : List String) (nargs : Nat) : Option PyError :=
  if nargs = params.length then none else some .typeError

/-! Helper lemmas about the embedding. -/

/-- Updating only the `selected` field leaves the `dataset` property alone. -/
@[simp] theorem dataset_with_selected (v : SussViewer) (s : Finset Nat) :
    SussViewer.dataset { v with selected := s } = v.dataset := rfl

/-- Updating only the `highlighted` field leaves the `dataset` property alone. -/
@[simp] theorem dataset_with_highlighted (v : SussViewer) (h : Option Nat) :
    SussViewer.dataset { v with highlighted := h } = v.dataset := rfl

/-- After a push, the `dataset` property is the pushed dataset. -/
@[simp] theorem dataset_after_push (st : List (String × Dataset))
    (s : Finset Nat) (h : Option Nat) (a : String) (d : Dataset) :
    SussViewer.dataset ⟨st ++ [(a, d)], s, h⟩ = d := by
  simp [SussViewer.dataset, List.getLast?_concat]

/-! Claim theorems. -/

/-- C4 counterexample: starting from highlight `some 2`, `clear` empties the
selection and emits both notifications, but the highlighted label remains
`some 2` — it is not left equal to none as the claim states. -/
def c4state : SussViewer := ⟨[("load", ⟨0, {1, 2, 3}⟩)], {1}, some 2⟩

theorem C4_counterexample :
    (clear c4state).1.highlighted = some 2 ∧
    ¬ (clear c4state).1.highlighted = none ∧
    (clear c4state).2 =
      [.clusterSelect ∅ {1}, .clusterHighlight none (some 2)] := by decide

/-- C4 (amended): `clear()` empties the selection and unconditionally emits a
selection-changed notification (carrying the empty set) followed by a
highlight-changed notification (carrying none and the current highlight), but
it leaves the `highlighted` attribute itself unchanged rather than clearing
it to none. -/
theorem C4_clear_behaviour (v : SussViewer) :
    clear v = ({ v with selected := ∅ },
      [.clusterSelect ∅ v.selected, .clusterHighlight none v.highlighted]) :=
  rfl

/-- C7: an undo request when the history stack holds only the load entry is a
warning-level no-op: the stack, current dataset, selection and highlight are
left unchanged and no notification is emitted. -/
theorem C7_undo_on_load_only_noop (v : SussViewer) (h : v.stack.length = 1) :
    _undo v = (v, []) := by
  simp [_undo, h]

def c7state : SussViewer := ⟨[("load", ⟨0, {1, 2}⟩)], {1}, some 1⟩

/-- Witness for C7 at a concrete single-entry stack. -/
theorem C7_witness : _undo c7state = (c7state, []) :=
  C7_undo_on_load_only_noop c7state (by decide)

/-- C8: `select_all` is a pure toggle over the full current label set — it
clears the selection when it already equals the full label set and otherwise
sets it to the full label set — and applying it twice from an empty selection
returns to an empty selection. -/
theorem C8_select_all_toggle (v : SussViewer) :
    ((select_all v).1.selected =
      if v.selected = v.dataset.labels then (∅ : Finset Nat)
      else v.dataset.labels) ∧
    (v.selected = ∅ → (select_all (select_all v).1).1.selected = ∅) := by
  refine ⟨rfl, ?_⟩
  intro h
  rcases eq_or_ne v.dataset.labels (∅ : Finset Nat) with hL | hL
  · simp [select_all, h, hL]
  · have hL' : (∅ : Finset Nat) ≠ v.dataset.labels := Ne.symm hL
    simp [select_all, h, hL, hL']

def c8state : SussViewer := ⟨[("load", ⟨0, {1, 2}⟩)], ∅, none⟩

/-- Witness for C8: double `select_all` from an empty selection is empty. -/
theorem C8_witness :
    (select_all (select_all c8state).1).1.selected = ∅ :=
  (C8_select_all_toggle c8state).2 rfl

/-- C9: `reset` truncates the stack to the load entry and emits the
dataset-changed notification, then raises `AttributeError` because
`dataset_updated` is defined nowhere on the viewer; it never completes
normally. -/
theorem C9_reset_attribute_error (v : SussViewer) :
    reset v = ({ v with stack := v.stack.take 1 },
      [Event.updatedClusters
        (SussViewer.dataset { v with stack := v.stack.take 1 }) v.dataset],
      some (PyError.attributeError "dataset_updated")) := by
  have h : sussViewerHasAttr "dataset_updated" = false := by decide
  simp [reset, h]

/-- C10: every highlight-changed emission of `set_highlight` or `clear`
carries exactly two values, while `TimeseriesPlot.on_cluster_highlight`
requires three positional arguments, so its delivery raises `TypeError`. -/
theorem C10_highlight_arity_mismatch (v : SussViewer) (label : Option Nat)
    (e : Event) (he : e ∈ (set_highlight v label).2 ++ (clear v).2)
    (hh : e.isHighlight = true) :
    e.arity = 2 ∧
    pyCallRequired on_cluster_highlight_params e.arity =
      some PyError.typeError := by
  have h2 : e.arity = 2 := by cases e <;> rfl
  exact ⟨h2, by rw [h2]; decide⟩

def c10state : SussViewer := ⟨[("load", ⟨0, {1, 2}⟩)], {1}, some 1⟩

/-- Witness for C10 at the concrete highlight event emitted by
`set_highlight`. -/
theorem C10_witness :
    (Event.clusterHighlight (some 2) (some 1)).arity = 2 ∧
    pyCallRequired on_cluster_highlight_params
      (Event.clusterHighlight (some 2) (some 1)).arity =
        some PyError.typeError :=
  C10_highlight_arity_mismatch c10state (some 2)
    (Event.clusterHighlight (some 2) (some 1)) (by decide) (by decide)

/-- C1 counterexample: with labels {1,2,3} and selection {2},
`delete_unselected` leaves a dataset with surviving labels {2} but sets the
selection to the empty set, not to the surviving label set. -/
def c1state : SussViewer := ⟨[("load", ⟨0, {1, 2, 3}⟩)], {2}, none⟩

theorem C1_counterexample :
    (delete_unselected c1state).1.dataset.labels = {2} ∧
    (delete_unselected c1state).1.selected = ∅ ∧
    ¬ ((delete_unselected c1state).1.selected =
        (delete_unselected c1state).1.dataset.labels) := by decide

/-- C1 (amended): a delete-unselected edit that deletes at least one label
sets the selection to the empty set (not to the surviving label set); the
surviving label set equals the old labels intersected with the old selection,
and the final selection-changed emission carries the empty set. -/
theorem C1_delete_unselected_clears_selection (v : SussViewer)
    (h : v.dataset.labels \ v.selected ≠ ∅) :
    (delete_unselected v).1.selected = ∅ ∧
    (delete_unselected v).1.dataset.labels = v.dataset.labels ∩ v.selected ∧
    (delete_unselected v).2.getLast? =
      some (.clusterSelect ∅ v.selected) := by
  have hc : ¬ (v.dataset.labels \ v.selected).card = 0 :=
    fun hc => h (Finset.card_eq_zero.mp hc)
  refine ⟨?_, ?_, ?_⟩ <;>
    simp [delete_unselected, _delete, _enstack, delete_all, hc,
      Finset.sdiff_sdiff_self_left, List.getLast?_concat]

def c1wstate : SussViewer := ⟨[("load", ⟨0, {1, 2, 3}⟩)], {2}, none⟩

/-- Witness for C1 at the claim's own scenario (labels {1,2,3}, selection
{2}). -/
theorem C1_witness :
    (delete_unselected c1wstate).1.selected = ∅ ∧
    (delete_unselected c1wstate).1.dataset.labels =
      c1wstate.dataset.labels ∩ c1wstate.selected ∧
    (delete_unselected c1wstate).2.getLast? =
      some (.clusterSelect ∅ c1wstate.selected) :=
  C1_delete_unselected_clears_selection c1wstate (by decide)

/-- C2 counterexample: `delete` on a state with selection {1} performs a
structural edit (the stack grows to two entries and a dataset-changed
notification fires) yet emits no selection-changed notification even though
the selection silently changes from {1} to the empty set. -/
def c2state : SussViewer := ⟨[("load", ⟨0, {1, 2}⟩)], {1}, none⟩

theorem C2_counterexample :
    (delete c2state).1.stack.length = 2 ∧
    c2state.selected = {1} ∧
    (delete c2state).1.selected = ∅ ∧
    (delete c2state).2 = [Event.updatedClusters ⟨0, {2}⟩ ⟨0, {1, 2}⟩] ∧
    (delete c2state).2.filter Event.isSelect = [] := by decide

/-- C2 (amended): merge, delete-unselected and undo each emit exactly one
selection-changed notification (even when the recomputed selection is
unchanged), but a delete emits none — it only emits the dataset-changed
notification and clears the selection silently. The hypotheses make the
merge, undo and delete paths the accepted, structural ones. -/
theorem C2_select_emission_per_edit (v : SussViewer) (md : Dataset)
    (hm : 2 ≤ v.selected.card) (hu : v.stack.length ≠ 1) :
    ((merge v md).2.filter Event.isSelect).length = 1 ∧
    ((delete_unselected v).2.filter Event.isSelect).length = 1 ∧
    ((_undo v).2.filter Event.isSelect).length = 1 ∧
    (delete v).2.filter Event.isSelect = [] := by
  have hm' : ¬ v.selected.card < 2 := Nat.not_lt.mpr hm
  have hc : ¬ v.selected.card = 0 := by omega
  refine ⟨?_, ?_, ?_, ?_⟩
  · simp [merge, hm', _enstack, Event.isSelect]
  · by_cases hd : (v.dataset.labels \ v.selected).card = 0
    · simp [delete_unselected, _delete, hd, Event.isSelect]
    · simp [delete_unselected, _delete, hd, _enstack, Event.isSelect]
  · simp [_undo, hu, Event.isSelect]
  · simp [delete, _delete, hc, _enstack, Event.isSelect]

def c2wstate : SussViewer :=
  ⟨[("load", ⟨0, {1, 2, 3}⟩), ("merge", ⟨1, {3, 4}⟩)], {3, 4}, none⟩

/-- Witness for C2 on a concrete two-entry stack with two selected labels. -/
theorem C2_witness :
    ((merge c2wstate ⟨2, {5}⟩).2.filter Event.isSelect).length = 1 ∧
    ((delete_unselected c2wstate).2.filter Event.isSelect).length = 1 ∧
    ((_undo c2wstate).2.filter Event.isSelect).length = 1 ∧
    (delete c2wstate).2.filter Event.isSelect = [] :=
  C2_select_emission_per_edit c2wstate ⟨2, {5}⟩ (by decide) (by decide)

/-- C3 counterexample: a rejected delete-unselected (everything is selected,
so there is nothing to delete) leaves the stack alone but still clears the
selection from {1,2} to the empty set and emits a selection-changed
notification. -/
def c3state : SussViewer := ⟨[("load", ⟨0, {1, 2}⟩)], {1, 2}, none⟩

theorem C3_counterexample :
    (delete_unselected c3state).1.stack = c3state.stack ∧
    c3state.selected = {1, 2} ∧
    (delete_unselected c3state).1.selected = ∅ ∧
    (delete_unselected c3state).2 = [Event.clusterSelect ∅ {1, 2}] := by
  decide

/-- C3 (amended): a rejected merge (fewer than two selected labels) and a
rejected delete (empty selection) leave the history stack and the selection
exactly as they were and emit nothing; but a rejected delete-unselected (no
label outside the selection) leaves the stack untouched while still clearing
the selection to empty and emitting one selection-changed notification. -/
theorem C3_rejected_commands (v : SussViewer) (md : Dataset) :
    (v.selected.card < 2 → merge v md = (v, [])) ∧
    (v.selected = ∅ → delete v = (v, [])) ∧
    (v.dataset.labels ⊆ v.selected →
      delete_unselected v =
        ({ v with selected := ∅ }, [.clusterSelect ∅ v.selected])) := by
  refine ⟨?_, ?_, ?_⟩
  · intro h
    simp [merge, h]
  · intro h
    have hc : v.selected.card = 0 := by simp [h]
    cases v with
    | mk st sel hl =>
        simp only at h
        simp [delete, _delete, hc, h]
  · intro h
    have hd : v.dataset.labels \ v.selected = ∅ :=
      Finset.sdiff_eq_empty_iff_subset.mpr h
    simp [delete_unselected, _delete, hd]

def c3w1 : SussViewer := ⟨[("load", ⟨0, {1, 2}⟩)], {1}, none⟩
def c3w2 : SussViewer := ⟨[("load", ⟨0, {1, 2}⟩)], ∅, none⟩
def c3w3 : SussViewer := ⟨[("load", ⟨0, {1, 2}⟩)], {1, 2}, none⟩

/-- Witness for C3 at three concrete rejected commands. -/
theorem C3_witness :
    merge c3w1 ⟨1, {3}⟩ = (c3w1, []) ∧
    delete c3w2 = (c3w2, []) ∧
    delete_unselected c3w3 =
      ({ c3w3 with selected := ∅ }, [.clusterSelect ∅ c3w3.selected]) :=
  ⟨(C3_rejected_commands c3w1 ⟨1, {3}⟩).1 (by decide),
   (C3_rejected_commands c3w2 ⟨1, {3}⟩).2.1 (by decide),
   (C3_rejected_commands c3w3 ⟨1, {3}⟩).2.2 (by decide)⟩

/-- C5: an accepted merge sets the selection to the intersection of the new
dataset's label set with the symmetric difference of the old and new label
sets. -/
theorem C5_merge_selection (v : SussViewer) (md : Dataset)
    (h : 2 ≤ v.selected.card) :
    (merge v md).1.selected =
      md.labels ∩
        ((v.dataset.labels \ md.labels) ∪ (md.labels \ v.dataset.labels)) := by
  have h' : ¬ v.selected.card < 2 := Nat.not_lt.mpr h
  simp [merge, h', _enstack, get_changed_labels, Finset.union_comm]

def c5state : SussViewer := ⟨[("load", ⟨0, {1, 2, 3}⟩)], {1, 2}, none⟩

/-- Witness for C5 at the claim's own scenario: labels {1,2,3}, selection
{1,2}, merge producing labels {3,4}; the resulting selection is {4}. -/
theorem C5_witness :
    (merge c5state ⟨1, {3, 4}⟩).1.selected =
      ({3, 4} : Finset Nat) ∩
        ((({1, 2, 3} : Finset Nat) \ {3, 4}) ∪
          (({3, 4} : Finset Nat) \ {1, 2, 3})) ∧
    (merge c5state ⟨1, {3, 4}⟩).1.selected = {4} :=
  ⟨C5_merge_selection c5state ⟨1, {3, 4}⟩ (by decide), by decide⟩

/-- C6: pushing an entry and then undoing restores the history stack to
exactly its prior sequence of entries (same action names, same dataset
values) and leaves the highlight alone, while the selection is recomputed by
the undo selection policy from the popped action, the popped dataset and the
restored dataset — independent of the selection held before the push. -/
theorem C6_push_pop_roundtrip (v : SussViewer) (a : String) (d : Dataset)
    (h : v.stack ≠ []) :
    (_undo (_enstack v a d).1).1.stack = v.stack ∧
    (_undo (_enstack v a d).1).1.highlighted = v.highlighted ∧
    (_undo (_enstack v a d).1).1.selected =
      undo_selection_policy a d v.dataset := by
  have hlen : ((_enstack v a d).1).stack.length ≠ 1 := by
    have : 0 < v.stack.length := List.length_pos.mpr h
    simp only [_enstack, List.length_append, List.length_cons,
      List.length_nil]
    omega
  refine ⟨?_, ?_, ?_⟩ <;>
    simp [_undo, _enstack, hlen, h, List.getLast?_concat,
      List.dropLast_concat, undo_selection_policy, SussViewer.dataset]

def c6state : SussViewer := ⟨[("load", ⟨0, {1, 2, 3}⟩)], {1, 2}, some 9⟩

/-- Witness for C6: push a merge entry and undo it on a concrete state. -/
theorem C6_witness :
    (_undo (_enstack c6state "merge" ⟨1, {3, 4}⟩).1).1.stack =
      c6state.stack ∧
    (_undo (_enstack c6state "merge" ⟨1, {3, 4}⟩).1).1.highlighted =
      c6state.highlighted ∧
    (_undo (_enstack c6state "merge" ⟨1, {3, 4}⟩).1).1.selected =
      undo_selection_policy "merge" ⟨1, {3, 4}⟩ c6state.dataset :=
  C6_push_pop_roundtrip c6state "merge" ⟨1, {3, 4}⟩ (by decide)

end Suss
